import Mathlib

/-!
Shallow embedding of the annotation-stabilization pipeline of the
`visors` repository, together with proofs about its marker lifecycle,
reconciler, interpolation and distance-estimation code.

Numeric values are modelled with `ℚ` (the JavaScript source performs its
arithmetic on IEEE doubles; every claim under study is about the exact
arithmetic of the algorithms, so the rational embedding is the faithful
idealization).  `Date.now()` timestamps are likewise modelled as `ℚ`
(milliseconds).
-/

/-- JavaScript `x.toFixed(1)` followed by `parseFloat`, as used by both
`calculateDistance` implementations and by the reconciler's marker
builder: round to one decimal place. -/
def toFixed1 (q : ℚ) : ℚ := (round (q * 10) : ℤ) / 10

/-- Per-character JavaScript `toLowerCase` on the character ranges the
program's labels exercise: ASCII `A`-`Z`, and the Cyrillic range
`А`-`Я` (U+0410-U+042F, mapped by +0x20) together with `Ё`
(U+0401 → U+0451).  The worker labels (`РЕЧЬ`, `ЛИЦО`, `ТЕЛО`, …) are
uppercase Cyrillic, which JavaScript lowercases onto the table keys. -/
def jsCharToLower (c : Char) : Char :=
  if c.isUpper then c.toLower
  else if 0x410 ≤ c.toNat ∧ c.toNat ≤ 0x42F then Char.ofNat (c.toNat + 0x20)
  else if c.toNat = 0x401 then Char.ofNat 0x451
  else c

/-- JavaScript `label.toLowerCase()`, written over the character list so
the kernel can evaluate it. -/
def toLowerCase (s : String) : String := String.mk (s.data.map jsCharToLower)

namespace RenderWorker

/-! ## The render worker of `src/components/VideoHUD.tsx` (RENDER_WORKER_CODE)

Per-frame marker lifecycle: the `markers.forEach` pass (lines 223-242)
marks entries active, refreshes `lastSeen` and sets `targetOpacity = 1`;
the `visualState.forEach` pass (lines 244-250) fades unmatched entries and
deletes fully faded ones.  The position-smoothing assignments
(`visual.x = lerp(visual.x, m.x, LERP_FACTOR)` …) and the drawing code are
not referenced by any claim and carry no opacity state, so the entry model
keeps exactly the lifecycle fields the two passes read and write. -/

/-- `const lerp = (start, end, factor) => start + (end - start) * factor;`
(line 58 of the worker source). -/
def lerp (start finish factor : ℚ) : ℚ := start + (finish - start) * factor

/-- `const PERSISTENCE_MS = 500;` — time markers stay before fading. -/
def PERSISTENCE_MS : ℚ := 500

/-- Lifecycle state of one `visualState` entry. -/
structure VisualEntry where
  currentOpacity : ℚ
  targetOpacity : ℚ
  lastSeen : ℚ
  deriving DecidableEq, Repr

/-- The `targetOpacity` in force when the deletion check runs, for an entry
that is (`active = true`) or is not (`active = false`) in `activeIds`
this frame: an active entry had `targetOpacity = 1` assigned in the
`markers.forEach` pass; an inactive one gets 1 or 0 from the persistence
test `now - m.lastSeen < PERSISTENCE_MS` (lines 245-248). -/
def stepTarget (active : Bool) (now : ℚ) (e : VisualEntry) : ℚ :=
  if active then 1
  else if now - e.lastSeen < PERSISTENCE_MS then 1 else 0

/-- `lastSeen` after the frame: refreshed to `now` for active entries
(line 232), untouched otherwise. -/
def stepLastSeen (active : Bool) (now : ℚ) (e : VisualEntry) : ℚ :=
  if active then now else e.lastSeen

/-- `m.currentOpacity = lerp(m.currentOpacity, m.targetOpacity, 0.15);`
(line 249), with the target already updated for this frame. -/
def stepOpacity (active : Bool) (now : ℚ) (e : VisualEntry) : ℚ :=
  lerp e.currentOpacity (stepTarget active now e) 0.15

/-- One frame of the lifecycle pass for one entry.
`none` models `visualState.delete(id)`:
`if (m.currentOpacity < 0.05) { visualState.delete(id); return; }`. -/
def frameEntryStep (active : Bool) (now : ℚ) (e : VisualEntry) :
    Option VisualEntry :=
  if stepOpacity active now e < 0.05 then none
  else some
    { currentOpacity := stepOpacity active now e
      targetOpacity := stepTarget active now e
      lastSeen := stepLastSeen active now e }

/-- Iterated frames for an entry that is never re-matched
(`active = false` on every frame), at the given frame times; `none` as
soon as the entry is deleted. -/
def iterateFrames (times : List ℚ) (e : VisualEntry) : Option VisualEntry :=
  match times with
  | [] => some e
  | t :: ts =>
    match frameEntryStep false t e with
    | none => none
    | some e2 => iterateFrames ts e2


/-- Device orientation sample (`alpha` = yaw, `beta` = pitch,
`gamma` = roll), as carried by `UPDATE_SENSORS` payloads. -/
structure Orientation where
  alpha : ℚ
  beta : ℚ
  gamma : ℚ
  deriving DecidableEq, Repr

/-- Messages accepted by the render worker's `onmessage` handler
(lines 60-111).  `INIT` is modelled by `initState`; the marker payload
type is abstract (`μ`) because no claim depends on marker contents. -/
inductive WorkerMsg (μ : Type) where
  | updateMarkers (payload : List μ)
  | updateSensors (orientation : Orientation) (zoom : ℚ)
  | updateMode (payload : String)
  | resize (width height : ℚ)
  deriving DecidableEq, Repr

/-- Whether a message is an `UPDATE_SENSORS` message (an orientation
sample). -/
def WorkerMsg.isUpdateSensors {μ : Type} : WorkerMsg μ → Bool
  | .updateSensors _ _ => true
  | _ => false

/-- Worker-global mutable state (lines 16-31 of the worker source).
`visualState` is modelled separately through `VisualEntry` /
`frameEntryStep`; the rendering context `ctx` is outside the embedding. -/
structure WorkerState (μ : Type) where
  canvasWidth : ℚ
  canvasHeight : ℚ
  markers : List μ
  currentOrientation : Orientation
  anchorOrientation : Orientation
  orientationInitialized : Bool
  zoomLevel : ℚ
  visualMode : String
  deriving Repr

/-- State after `INIT` with a canvas of the given size: the worker's
top-level initializers (lines 16-31). -/
def initState (μ : Type) (w h : ℚ) : WorkerState μ :=
  { canvasWidth := w
    canvasHeight := h
    markers := []
    currentOrientation := ⟨0, 0, 0⟩
    anchorOrientation := ⟨0, 0, 0⟩
    orientationInitialized := false
    zoomLevel := 1
    visualMode := "normal" }

/-- The `UPDATE_SENSORS` branch (lines 85-107): first sample initializes
both orientations; later samples are smoothed with factor `a = 0.1`, the
yaw delta wrapped into `(-180, 180]` and the result renormalized into
`[0, 360)` by single conditional corrections. -/
def applySensors {μ : Type} (s : WorkerState μ) (raw : Orientation)
    (zoom : ℚ) : WorkerState μ :=
  if s.orientationInitialized = false then
    { s with currentOrientation := raw, anchorOrientation := raw
             orientationInitialized := true, zoomLevel := zoom }
  else
    let a : ℚ := 0.1
    let dAlpha0 := raw.alpha - s.currentOrientation.alpha
    let dAlpha1 := if dAlpha0 > 180 then dAlpha0 - 360 else dAlpha0
    let dAlpha := if dAlpha1 < -180 then dAlpha1 + 360 else dAlpha1
    let alpha0 := s.currentOrientation.alpha + dAlpha * a
    let alpha1 := if alpha0 < 0 then alpha0 + 360 else alpha0
    let alpha := if alpha1 ≥ 360 then alpha1 - 360 else alpha1
    { s with
        currentOrientation :=
          { alpha := alpha
            beta := lerp s.currentOrientation.beta raw.beta a
            gamma := lerp s.currentOrientation.gamma raw.gamma a }
        zoomLevel := zoom }

/-- One `onmessage` dispatch (lines 60-111; `INIT` handled by
`initState`). -/
def handleMsg {μ : Type} (msg : WorkerMsg μ) (s : WorkerState μ) :
    WorkerState μ :=
  match msg with
  | .resize w h => { s with canvasWidth := w, canvasHeight := h }
  | .updateMarkers payload =>
    -- Resync anchor to current orientation (markers are "ground truth").
    if s.orientationInitialized then
      { s with markers := payload, anchorOrientation := s.currentOrientation }
    else
      { s with markers := payload }
  | .updateSensors ori zoom => applySensors s ori zoom
  | .updateMode payload => { s with visualMode := payload }

/-- A sequence of messages processed in order. -/
def runMsgs {μ : Type} (msgs : List (WorkerMsg μ)) (s : WorkerState μ) :
    WorkerState μ :=
  msgs.foldl (fun acc m => handleMsg m acc) s

/-- The per-frame screen-space stabilization shift (lines 166-193 of the
worker `loop`): `(shiftX, shiftY)` stays at its initialization `(0, 0)`
unless `orientationInitialized` is set. -/
def computeShift {μ : Type} (s : WorkerState μ) : ℚ × ℚ :=
  let degPerPixelX := 60 / s.canvasWidth
  let degPerPixelY := 45 / s.canvasHeight
  let ppdY := 1 / degPerPixelY
  let ppdX := 1 / degPerPixelX
  if s.orientationInitialized then
    let dAlpha0 := s.currentOrientation.alpha - s.anchorOrientation.alpha
    let dAlpha1 := if dAlpha0 > 180 then dAlpha0 - 360 else dAlpha0
    let dAlpha := if dAlpha1 < -180 then dAlpha1 + 360 else dAlpha1
    let dBeta := s.currentOrientation.beta - s.anchorOrientation.beta
    (-(dAlpha * ppdX), -(dBeta * ppdY))
  else
    (0, 0)


end RenderWorker


namespace ODSWorld

/-! ## The reconciler of `src/unnamed/part_002` (`ObjectDetectionService`)

World-coordinate tracker with IoU matching, dead-reckoning extrapolation
and hard eviction after `MAX_MISSING_MS`. -/

/-- First loop of `getAlphaDiff`: `while (diff > 180) diff -= 360;`. -/
def reduceDown (d : ℚ) : ℚ :=
  if 180 < d then reduceDown (d - 360) else d
termination_by (⌈(d - 180) / 360⌉).toNat
decreasing_by
  have h1 : (0 : ℚ) < (d - 180) / 360 := by
    apply div_pos (by linarith) (by norm_num)
  have h2 : ⌈(d - 360 - 180) / 360⌉ = ⌈(d - 180) / 360⌉ - 1 := by
    have he : (d - 360 - 180) / 360 = (d - 180) / 360 - (1 : ℤ) := by
      push_cast
      ring
    rw [he, Int.ceil_sub_int]
  have h3 : 0 < ⌈(d - 180) / 360⌉ := Int.ceil_pos.mpr h1
  omega

/-- Second loop of `getAlphaDiff`: `while (diff < -180) diff += 360;`. -/
def reduceUp (d : ℚ) : ℚ :=
  if d < -180 then reduceUp (d + 360) else d
termination_by (⌈(-180 - d) / 360⌉).toNat
decreasing_by
  have h1 : (0 : ℚ) < (-180 - d) / 360 := by
    apply div_pos (by linarith) (by norm_num)
  have h2 : ⌈(-180 - (d + 360)) / 360⌉ = ⌈(-180 - d) / 360⌉ - 1 := by
    have he : (-180 - (d + 360)) / 360 = (-180 - d) / 360 - (1 : ℤ) := by
      push_cast
      ring
    rw [he, Int.ceil_sub_int]
  have h3 : 0 < ⌈(-180 - d) / 360⌉ := Int.ceil_pos.mpr h1
  omega

/-- `getAlphaDiff` (lines 157-162): wrap the raw yaw difference into
the shortest-path range by the two `while` loops. -/
def getAlphaDiff (a1 a2 : ℚ) : ℚ := reduceUp (reduceDown (a1 - a2))

/-- Axis-aligned box given by center and size.  The source passes two
structurally identical anonymous records (fields `worldX`/`worldY` for
the tracked entry, `wx`/`wy` for the detection). -/
structure IoUBox where
  worldX : ℚ
  worldY : ℚ
  w : ℚ
  h : ℚ
  deriving DecidableEq, Repr

/-- `getIoU` (lines 277-286): intersection-over-union of two
center-size boxes; `union || 0.0001` guards the division against a zero
union (JavaScript falsiness of `0`). -/
def getIoU (a b : IoUBox) : ℚ :=
  let x1 := max (a.worldX - a.w / 2) (b.worldX - b.w / 2)
  let y1 := max (a.worldY - a.h / 2) (b.worldY - b.h / 2)
  let x2 := min (a.worldX + a.w / 2) (b.worldX + b.w / 2)
  let y2 := min (a.worldY + a.h / 2) (b.worldY + b.h / 2)
  let inter := max 0 (x2 - x1) * max 0 (y2 - y1)
  let union := a.w * a.h + b.w * b.h - inter
  inter / (if union = 0 then 0.0001 else union)

/-- Tracked entry of the persistence cache (`PersistenceData`,
lines 102-116).  The `keypoints` field is omitted: it is carried along
verbatim and read by no claim. -/
structure PersistenceData where
  id : String
  hits : ℕ
  misses : ℕ
  lastSeen : ℚ
  worldX : ℚ
  worldY : ℚ
  w : ℚ
  h : ℚ
  label : String
  shape : String
  distAvg : List ℚ
  vx : ℚ
  vy : ℚ
  deriving DecidableEq, Repr

/-- A raw detection as delivered in the worker's `RESULT` message
(normalized coordinates; keypoints again omitted). -/
structure Detection where
  label : String
  shape : String
  x : ℚ
  y : ℚ
  width : ℚ
  height : ℚ
  confidence : ℚ
  deriving DecidableEq, Repr

/-- A detection with world coordinates attached (lines 174-183). -/
structure WorldDet extends Detection where
  wx : ℚ
  wy : ℚ
  deriving DecidableEq, Repr

/-- The produced `Marker` record (lines 262-272).  The `speed` field
(`sqrt(vx² + vy²) * 60`) is omitted: it is irrational over `ℚ` and read
by no claim. -/
structure Marker where
  id : String
  label : String
  x : ℚ
  y : ℚ
  width : ℚ
  height : ℚ
  shape : String
  distance : ℚ
  lastUpdated : ℚ
  confidence : ℚ
  deriving DecidableEq, Repr

/-- Mutable service state around `process`: the persistence cache (an
insertion-ordered association list, as a JavaScript `Map`), the fresh-id
counter and the anchor orientation. -/
structure ServiceState where
  persistenceCache : List (String × PersistenceData)
  nextId : ℕ
  anchorOri : Option (ℚ × ℚ)
  deriving DecidableEq, Repr

/-- `private readonly HEIGHTS` (lines 127-129). -/
def HEIGHTS : List (String × ℚ) :=
  [("ГУМАНОИД", 1.72), ("АВТО", 1.45), ("ГРУЗОВИК", 3.4),
   ("ТЕЛЕФОН", 0.16), ("БИО_ЛИЦО", 0.23), ("НОУТБУК", 0.28)]

/-- `private readonly H_FOV = 60;` -/
def H_FOV : ℚ := 60

/-- `private readonly MAX_MISSING_MS = 1500;` -/
def MAX_MISSING_MS : ℚ := 1500

/-- `private readonly EXTRAPOLATION_LIMIT = 5;` -/
def EXTRAPOLATION_LIMIT : ℕ := 5

/-- `this.HEIGHTS[label] || 1.2` (lines 226 and 249; no table entry is 0,
so `Option.getD` models the JavaScript `||`). -/
def heightOf (label : String) : ℚ := (List.lookup label HEIGHTS).getD 1.2

/-- The best-IoU search of the matching loop (lines 188-203): scan the
detections with their indices, skip already-matched ones, and keep the
strictly best IoU above the initial threshold `maxIoU = 0.05`, computed
against the entry's predicted box. -/
def findBest (predX predY w h : ℚ) (dets : List WorldDet)
    (matched : List ℕ) : Option (ℕ × WorldDet) :=
  (dets.enum.foldl
    (fun acc p =>
      if p.1 ∈ matched then acc
      else
        let iou := getIoU ⟨predX, predY, w, h⟩
          ⟨p.2.wx, p.2.wy, p.2.width, p.2.height⟩
        if acc.1 < iou then (iou, some p) else acc)
    ((0.05 : ℚ), none)).2

/-- The matched branch (lines 205-228): velocity EMA when the elapsed
time exceeds 10 ms, then position/size/bookkeeping updates and the
running distance average (window of 5). -/
def updateMatched (now : ℚ) (data : PersistenceData) (det : WorldDet) :
    PersistenceData :=
  let dt := (now - data.lastSeen) / 1000
  let vx := if 0.01 < dt then
    data.vx * 0.7 + ((det.wx - data.worldX) / dt) * 0.3 else data.vx
  let vy := if 0.01 < dt then
    data.vy * 0.7 + ((det.wy - data.worldY) / dt) * 0.3 else data.vy
  let realH := heightOf det.label
  let distAvg1 := data.distAvg ++ [realH / (det.height * 1.15)]
  let distAvg2 := if 5 < distAvg1.length then distAvg1.drop 1 else distAvg1
  { data with
      vx := vx
      vy := vy
      worldX := det.wx
      worldY := det.wy
      w := det.width
      h := det.height
      lastSeen := now
      hits := data.hits + 1
      misses := 0
      distAvg := distAvg2 }

/-- The unmatched branch (lines 229-237): dead-reckoning extrapolation —
which refreshes `lastSeen = now` — for recently-seen established entries,
otherwise no change. -/
def updateUnmatched (now : ℚ) (data : PersistenceData) : PersistenceData :=
  let dtMiss := (now - data.lastSeen) / 1000
  if dtMiss < 1 ∧ 3 < data.hits ∧ data.misses < EXTRAPOLATION_LIMIT then
    { data with
        misses := data.misses + 1
        worldX := data.worldX + data.vx * dtMiss
        worldY := data.worldY + data.vy * dtMiss
        lastSeen := now }
  else data

/-- One iteration of the matching loop (lines 187-238) over one cache
entry, threading the matched-detection index set. -/
def matchStep (now : ℚ) (dets : List WorldDet)
    (acc : List (String × PersistenceData) × List ℕ)
    (entry : String × PersistenceData) :
    List (String × PersistenceData) × List ℕ :=
  let data := entry.2
  let dtSec := (now - data.lastSeen) / 1000
  let predX := data.worldX + data.vx * dtSec
  let predY := data.worldY + data.vy * dtSec
  match findBest predX predY data.w data.h dets acc.2 with
  | some p =>
    (acc.1 ++ [(entry.1, updateMatched now data p.2)], acc.2 ++ [p.1])
  | none =>
    (acc.1 ++ [(entry.1, updateUnmatched now data)], acc.2)

/-- The whole matching loop over the cache, in insertion order. -/
def matchLoop (now : ℚ) (dets : List WorldDet)
    (cache : List (String × PersistenceData)) :
    List (String × PersistenceData) × List ℕ :=
  cache.foldl (matchStep now dets) (([], []))

/-- The spawn loop body (lines 240-252): an unmatched detection of
confidence at least 0.4 creates a fresh `local-<n>` entry. -/
def spawnStep (now : ℚ) (matched : List ℕ)
    (acc : List (String × PersistenceData) × ℕ) (p : ℕ × WorldDet) :
    List (String × PersistenceData) × ℕ :=
  if p.1 ∈ matched ∨ p.2.confidence < 0.4 then acc
  else
    (acc.1 ++ [("local-" ++ toString acc.2,
      { id := "local-" ++ toString acc.2
        hits := 1
        misses := 0
        lastSeen := now
        worldX := p.2.wx
        worldY := p.2.wy
        w := p.2.width
        h := p.2.height
        label := p.2.label
        shape := p.2.shape
        distAvg := [heightOf p.2.label / (p.2.height * 1.15)]
        vx := 0
        vy := 0 })], acc.2 + 1)

/-- The whole spawn loop, appending to the cache. -/
def spawnLoop (now : ℚ) (dets : List WorldDet) (matched : List ℕ)
    (cache : List (String × PersistenceData)) (nextId : ℕ) :
    List (String × PersistenceData) × ℕ :=
  dets.enum.foldl (spawnStep now matched) ((cache, nextId))

/-- The marker built for a surviving entry (lines 261-272, `speed`
omitted as above). -/
def buildMarker (data : PersistenceData) : Marker :=
  let avgDist := data.distAvg.sum / (data.distAvg.length : ℚ)
  { id := data.id
    label := data.label
    x := data.worldX
    y := data.worldY
    width := data.w
    height := data.h
    shape := data.shape
    distance := toFixed1 avgDist
    lastUpdated := data.lastSeen
    confidence := if 0 < data.misses then 0.4 else 0.9 }

/-- The eviction-and-output loop body (lines 254-273): an entry stale for
more than `MAX_MISSING_MS` is deleted (dropped from the rebuilt cache and
contributing no marker); survivors are kept and produce markers. -/
def finalizeStep (now : ℚ)
    (acc : List (String × PersistenceData) × List Marker)
    (entry : String × PersistenceData) :
    List (String × PersistenceData) × List Marker :=
  if MAX_MISSING_MS < now - entry.2.lastSeen then acc
  else (acc.1 ++ [entry], acc.2 ++ [buildMarker entry.2])

/-- The whole eviction-and-output loop. -/
def finalize (now : ℚ) (cache : List (String × PersistenceData)) :
    List (String × PersistenceData) × List Marker :=
  cache.foldl (finalizeStep now) (([], []))

/-- `process(newDets, captureOri)` (lines 164-275): anchor handling,
world-coordinate shift, matching, spawning, eviction and marker output.
Returns the new service state and the marker list. -/
def process (st : ServiceState) (newDets : List Detection)
    (captureOri : ℚ × ℚ) (now : ℚ) : ServiceState × List Marker :=
  let anchor := st.anchorOri.getD captureOri
  let da := getAlphaDiff captureOri.1 anchor.1
  let db := captureOri.2 - anchor.2
  let worldOffsetX := da / H_FOV
  let worldOffsetY := db / (H_FOV * 0.5625)
  let dets := newDets.map (fun d =>
    { toDetection := d, wx := d.x + worldOffsetX, wy := d.y + worldOffsetY })
  let m := matchLoop now dets st.persistenceCache
  let s := spawnLoop now dets m.2 m.1 st.nextId
  let f := finalize now s.1
  ({ persistenceCache := f.1, nextId := s.2, anchorOri := some anchor }, f.2)

end ODSWorld


namespace ODSInterp

/-! ## The interpolating tracker of `src/unnamed/part_001`
(`ObjectDetectionService` with adaptive LERP and deadzone)

Stabilization constants (lines 118-123). -/

/-- `private readonly MAX_PERSISTENCE = 10;` — frames of life per marker. -/
def MAX_PERSISTENCE : ℕ := 10

/-- `JITTER_THRESHOLD = 3.0` — pixels to ignore (deadzone). -/
def JITTER_THRESHOLD : ℚ := 3.0

/-- `MIN_LERP = 0.08` — very smooth for slow movement. -/
def MIN_LERP : ℚ := 0.08

/-- `MAX_LERP = 0.6` — fast snap for large movement. -/
def MAX_LERP : ℚ := 0.6

/-- The adaptive LERP factor of `getInterpolatedMarkers` (lines 222-223):
`lerpFactor = (dist / 100) * MAX_LERP`, then
`Math.max(MIN_LERP, Math.min(MAX_LERP, lerpFactor))`. -/
def lerpFactor (dist : ℚ) : ℚ :=
  max MIN_LERP (min MAX_LERP (dist / 100 * MAX_LERP))

/-- The position/size fields of one tracked marker that the adaptive
smoothing of `getInterpolatedMarkers` reads and writes. -/
structure IMarker where
  x : ℚ
  y : ℚ
  width : ℚ
  height : ℚ
  deriving DecidableEq, Repr

/-- The per-marker position/size update of `getInterpolatedMarkers`
(lines 209-231).  `dist` is the Euclidean center distance
`Math.sqrt(dx*dx + dy*dy)` computed by the source; it is passed as a
parameter (with its defining property stated in the theorems) because a
square root is in general irrational over `ℚ`, and the update uses it
only through the branch condition and the LERP factor. -/
def interpUpdate (curr target : IMarker) (dist : ℚ) : IMarker :=
  if dist < JITTER_THRESHOLD then
    -- Deadzone: keep current position, do nothing to x/y (nor w/h).
    curr
  else
    let lf := lerpFactor dist
    { x := curr.x + (target.x - curr.x) * lf
      y := curr.y + (target.y - curr.y) * lf
      width := curr.width + (target.width - curr.width) * lf
      height := curr.height + (target.height - curr.height) * lf }

end ODSInterp


namespace ODSMain

/-! ## `src/services/objectDetectionService.ts` (`ObjectDetectionService`)

The distance estimator: `OBJECT_HEIGHTS`, `DEFAULT_HEIGHT` and
`calculateDistance` (lines 245-334 and 436-452). -/

/-- `OBJECT_HEIGHTS` — real-world height estimates in meters, keyed by
lowercase label (COCO SSD labels plus the worker's custom Russian
labels).  No entry is `0`, so the JavaScript `|| DEFAULT_HEIGHT` fallback
fires exactly on missing keys, which `Option.getD` models. -/
def OBJECT_HEIGHTS : List (String × ℚ) :=
  [("person", 1.7), ("bicycle", 1.0), ("car", 1.5), ("motorcycle", 1.1),
   ("airplane", 10.0), ("bus", 3.2), ("train", 4.0), ("truck", 3.5),
   ("boat", 2.0), ("traffic light", 0.8), ("fire hydrant", 0.6),
   ("stop sign", 0.9), ("parking meter", 1.2), ("bench", 0.5),
   ("bird", 0.2), ("cat", 0.3), ("dog", 0.6), ("horse", 1.6),
   ("sheep", 0.8), ("cow", 1.4), ("elephant", 3.0), ("bear", 1.2),
   ("zebra", 1.4), ("giraffe", 5.0), ("backpack", 0.5), ("umbrella", 0.5),
   ("handbag", 0.3), ("tie", 0.5), ("suitcase", 0.6), ("frisbee", 0.3),
   ("skis", 1.8), ("snowboard", 1.5), ("sports ball", 0.25),
   ("kite", 0.5), ("baseball bat", 0.9), ("baseball glove", 0.3),
   ("skateboard", 0.2), ("surfboard", 2.0), ("tennis racket", 0.7),
   ("bottle", 0.25), ("wine glass", 0.2), ("cup", 0.15), ("fork", 0.2),
   ("knife", 0.2), ("spoon", 0.15), ("bowl", 0.15), ("banana", 0.2),
   ("apple", 0.1), ("sandwich", 0.1), ("orange", 0.1),
   ("broccoli", 0.15), ("carrot", 0.15), ("hot dog", 0.15),
   ("pizza", 0.3), ("donut", 0.1), ("cake", 0.2), ("chair", 1.0),
   ("couch", 0.9), ("potted plant", 0.5), ("bed", 0.6),
   ("dining table", 0.75), ("toilet", 0.5), ("tv", 0.6),
   ("laptop", 0.3), ("mouse", 0.05), ("remote", 0.2), ("keyboard", 0.03),
   ("cell phone", 0.15), ("microwave", 0.35), ("oven", 0.8),
   ("toaster", 0.25), ("sink", 0.2), ("refrigerator", 1.7),
   ("book", 0.25), ("clock", 0.3), ("vase", 0.4), ("scissors", 0.2),
   ("teddy bear", 0.5), ("hair drier", 0.25), ("toothbrush", 0.18),
   ("лицо", 0.25), ("речь", 0.25), ("тело", 1.7)]

/-- `private readonly DEFAULT_HEIGHT = 1.0;` -/
def DEFAULT_HEIGHT : ℚ := 1.0

/-- `this.OBJECT_HEIGHTS[label.toLowerCase()] || this.DEFAULT_HEIGHT`
(line 439): `calculateDistance` receives the original worker label
(line 420, "Use original label for lookup"), so uppercase Cyrillic labels
such as `РЕЧЬ`/`ЛИЦО`/`ТЕЛО` reach the lowercase Cyrillic table keys
through `toLowerCase`.  No table entry is `0`, so `Option.getD` models
the JavaScript `||` fallback exactly. -/
def heightFor (label : String) : ℚ :=
  (List.lookup (toLowerCase label) OBJECT_HEIGHTS).getD DEFAULT_HEIGHT

/-- `calculateDistance(label, bboxHeightPixels)` (lines 436-452), with the
instance field `this.currentVideoHeight` passed explicitly: guard
`bboxHeightPixels <= 0`, focal length `fPixels = currentVideoHeight * 1.2`,
then `parseFloat(((realHeight * fPixels) / bboxHeightPixels).toFixed(1))`.
Total by construction: it returns a rational for every input. -/
def calculateDistance (currentVideoHeight : ℚ) (label : String)
    (bboxHeightPixels : ℚ) : ℚ :=
  if bboxHeightPixels ≤ 0 then 0
  else
    toFixed1 (heightFor label * (currentVideoHeight * 1.2) /
      bboxHeightPixels)

end ODSMain

-- === Proof development ===

namespace RenderWorker

lemma stepOpacity_of_stale (active : Bool) (now : ℚ) (e : VisualEntry)
    (hact : active = false) (hstale : PERSISTENCE_MS ≤ now - e.lastSeen) :
    stepOpacity active now e = e.currentOpacity * 0.85 := by
  subst hact
  simp only [stepOpacity, stepTarget, lerp, if_false, Bool.false_eq_true,
    if_neg (not_lt.mpr hstale)]
  ring

lemma frameEntryStep_stale_le (now : ℚ) (e e2 : VisualEntry)
    (hop : 0 ≤ e.currentOpacity)
    (hstale : PERSISTENCE_MS ≤ now - e.lastSeen)
    (hstep : frameEntryStep false now e = some e2) :
    e2.currentOpacity ≤ e.currentOpacity ∧ 0 ≤ e2.currentOpacity ∧
      e2.lastSeen = e.lastSeen := by
  have hso : stepOpacity false now e = e.currentOpacity * 0.85 :=
    stepOpacity_of_stale false now e rfl hstale
  unfold frameEntryStep at hstep
  split at hstep
  · exact absurd hstep (by simp)
  · refine ⟨?_, ?_, ?_⟩
    · have : e2.currentOpacity = stepOpacity false now e := by
        cases hstep; rfl
      rw [this, hso]; nlinarith
    · have : e2.currentOpacity = stepOpacity false now e := by
        cases hstep; rfl
      rw [this, hso]; nlinarith
    · have : e2.lastSeen = stepLastSeen false now e := by
        cases hstep; rfl
      rw [this]; rfl

end RenderWorker

open RenderWorker in
/-- C1: in the render worker's per-frame marker pass, for every
visual-state entry whose `targetOpacity` is 0, the frame update
`currentOpacity' = lerp(currentOpacity, 0, 0.15)` is non-increasing for
all `currentOpacity ∈ [0,1]`, and opacity stays non-increasing on every
frame from the moment `targetOpacity` is set to 0 (the entry being stale
for at least `PERSISTENCE_MS`) until the entry is deleted, provided the
entry is never re-matched in between. -/
theorem claim_C1_opacity_monotone :
    (∀ c : ℚ, 0 ≤ c → c ≤ 1 → RenderWorker.lerp c 0 0.15 ≤ c) ∧
    (∀ (times : List ℚ) (e e2 : VisualEntry),
      0 ≤ e.currentOpacity →
      (∀ t ∈ times, PERSISTENCE_MS ≤ t - e.lastSeen) →
      iterateFrames times e = some e2 →
      e2.currentOpacity ≤ e.currentOpacity) := by
  constructor
  · intro c hc0 hc1
    unfold RenderWorker.lerp
    nlinarith
  · intro times
    induction times with
    | nil =>
      intro e e2 _ _ hit
      simp only [iterateFrames] at hit
      cases hit
      exact le_refl _
    | cons t ts ih =>
      intro e e2 hop hstale hit
      simp only [iterateFrames] at hit
      cases hstep : frameEntryStep false t e with
      | none => rw [hstep] at hit; exact absurd hit (by simp)
      | some e1 =>
        rw [hstep] at hit
        obtain ⟨hle, hnn, hseen⟩ :=
          frameEntryStep_stale_le t e e1 hop (hstale t (by simp)) hstep
        have htail : ∀ s ∈ ts, PERSISTENCE_MS ≤ s - e1.lastSeen := by
          intro s hs
          rw [hseen]
          exact hstale s (by simp [hs])
        exact le_trans (ih e1 e2 hnn htail hit) hle

/-- Witness for C1 at a concrete run: opacity 1/2, last seen at time 0,
two frames at times 600 and 700 (both stale), final opacity 289/800. -/
theorem claim_C1_opacity_monotone_witness :
    RenderWorker.lerp (1/2) 0 0.15 ≤ (1/2 : ℚ) ∧ (289/800 : ℚ) ≤ 1/2 := by
  constructor
  · exact claim_C1_opacity_monotone.1 (1/2) (by norm_num) (by norm_num)
  · exact claim_C1_opacity_monotone.2 [600, 700]
      ⟨1/2, 1, 0⟩ ⟨289/800, 0, 0⟩ (by norm_num)
      (by
        intro t ht
        simp only [List.mem_cons, List.not_mem_nil, or_false] at ht
        rcases ht with h | h <;> rw [h] <;>
          norm_num [RenderWorker.PERSISTENCE_MS])
      (by norm_num [RenderWorker.iterateFrames, RenderWorker.frameEntryStep,
        RenderWorker.stepOpacity, RenderWorker.stepTarget,
        RenderWorker.stepLastSeen, RenderWorker.lerp,
        RenderWorker.PERSISTENCE_MS])

open RenderWorker in
/-- C5: a visual-state entry is deleted exactly when its (freshly updated)
`currentOpacity` falls below the 0.05 threshold AND its `targetOpacity`
is 0; an entry whose `targetOpacity` is 1 is never deleted by the opacity
check. -/
theorem claim_C5_deletion_iff :
    ∀ (active : Bool) (now : ℚ) (e : VisualEntry),
      0 ≤ e.currentOpacity →
      ((frameEntryStep active now e = none ↔
        (stepOpacity active now e < 0.05 ∧ stepTarget active now e = 0)) ∧
       (stepTarget active now e = 1 → frameEntryStep active now e ≠ none)) := by
  intro active now e hop
  have htarget : stepTarget active now e = 0 ∨ stepTarget active now e = 1 := by
    unfold stepTarget
    split
    · right; rfl
    · split
      · right; rfl
      · left; rfl
  have hkey : stepTarget active now e = 1 →
      ¬ stepOpacity active now e < 0.05 := by
    intro h1
    unfold stepOpacity RenderWorker.lerp
    rw [h1]
    nlinarith
  refine ⟨⟨?_, ?_⟩, ?_⟩
  · intro hnone
    unfold frameEntryStep at hnone
    split at hnone
    · rcases htarget with h0 | h1
      · exact ⟨by assumption, h0⟩
      · exact absurd (by assumption) (hkey h1)
    · exact absurd hnone (by simp)
  · rintro ⟨hlt, _⟩
    unfold frameEntryStep
    rw [if_pos hlt]
  · intro h1
    unfold frameEntryStep
    rw [if_neg (hkey h1)]
    simp

/-- Witness for C5: a stale entry with opacity 1/100 and target 0 is
deleted by the opacity check. -/
theorem claim_C5_deletion_iff_witness :
    RenderWorker.frameEntryStep false 1000 ⟨1/100, 0, 0⟩ = none :=
  ((claim_C5_deletion_iff false 1000 ⟨1/100, 0, 0⟩ (by norm_num)).1).mpr
    ⟨by norm_num [RenderWorker.stepOpacity, RenderWorker.stepTarget,
        RenderWorker.lerp, RenderWorker.PERSISTENCE_MS],
     by norm_num [RenderWorker.stepTarget, RenderWorker.PERSISTENCE_MS]⟩

namespace RenderWorker

lemma handleMsg_preserves_uninit {μ : Type} (m : WorkerMsg μ)
    (s : WorkerState μ) (hm : m.isUpdateSensors = false)
    (hs : s.orientationInitialized = false) :
    (handleMsg m s).orientationInitialized = false := by
  cases m with
  | resize w h => simpa [handleMsg] using hs
  | updateMode p => simpa [handleMsg] using hs
  | updateSensors ori zoom => simp [WorkerMsg.isUpdateSensors] at hm
  | updateMarkers p =>
    simp only [handleMsg, hs, Bool.false_eq_true, if_false]

lemma runMsgs_preserves_uninit {μ : Type} (msgs : List (WorkerMsg μ)) :
    ∀ s : WorkerState μ, (∀ m ∈ msgs, m.isUpdateSensors = false) →
      s.orientationInitialized = false →
      (runMsgs msgs s).orientationInitialized = false := by
  induction msgs with
  | nil => intro s _ hs; exact hs
  | cons m ms ih =>
    intro s hall hs
    simp only [runMsgs, List.foldl_cons]
    exact ih (handleMsg m s)
      (fun x hx => hall x (by simp [hx]))
      (handleMsg_preserves_uninit m s (hall m (by simp)) hs)

end RenderWorker

open RenderWorker in
/-- C9: if no orientation sample has ever been received (so that
`orientationInitialized` is still `false`), the computed screen-space
shift `(shiftX, shiftY)` of the render worker's frame loop is exactly
`(0, 0)` on every frame: markers are drawn screen-locked at their
unshifted positions. -/
theorem claim_C9_shift_zero_without_orientation :
    ∀ (μ : Type) (msgs : List (WorkerMsg μ)) (w h : ℚ),
      (∀ m ∈ msgs, m.isUpdateSensors = false) →
      computeShift (runMsgs msgs (initState μ w h)) = (0, 0) := by
  intro μ msgs w h hall
  have huninit : (runMsgs msgs (initState μ w h)).orientationInitialized
      = false :=
    runMsgs_preserves_uninit msgs (initState μ w h) hall rfl
  simp only [computeShift, huninit, Bool.false_eq_true, if_false]

/-- Witness for C9: a concrete non-sensor message trace leaves the shift
at the origin. -/
theorem claim_C9_shift_zero_without_orientation_witness :
    RenderWorker.computeShift
      (RenderWorker.runMsgs
        [RenderWorker.WorkerMsg.updateMode "night",
         RenderWorker.WorkerMsg.resize 800 600]
        (RenderWorker.initState Unit 100 100)) = (0, 0) :=
  claim_C9_shift_zero_without_orientation Unit
    [RenderWorker.WorkerMsg.updateMode "night",
     RenderWorker.WorkerMsg.resize 800 600] 100 100
    (by
      intro m hm
      simp only [List.mem_cons, List.not_mem_nil, or_false] at hm
      rcases hm with h | h <;> rw [h] <;> rfl)

namespace ODSWorld

lemma reduceDown_le (d : ℚ) : reduceDown d ≤ 180 := by
  induction d using reduceDown.induct with
  | case1 d hd ih => rwa [reduceDown.eq_def, if_pos hd]
  | case2 d hd => rw [reduceDown.eq_def, if_neg hd]; linarith [not_lt.mp hd]

lemma reduceDown_congr (d : ℚ) : ∃ k : ℤ, reduceDown d = d - 360 * k := by
  induction d using reduceDown.induct with
  | case1 d hd ih =>
    obtain ⟨k, hk⟩ := ih
    exact ⟨k + 1, by rw [reduceDown.eq_def, if_pos hd, hk]; push_cast; ring⟩
  | case2 d hd => exact ⟨0, by rw [reduceDown.eq_def, if_neg hd]; push_cast; ring⟩

lemma reduceUp_ge (d : ℚ) : -180 ≤ reduceUp d := by
  induction d using reduceUp.induct with
  | case1 d hd ih => rwa [reduceUp.eq_def, if_pos hd]
  | case2 d hd => rw [reduceUp.eq_def, if_neg hd]; linarith [not_lt.mp hd]

lemma reduceUp_le (d : ℚ) (h : d ≤ 180) : reduceUp d ≤ 180 := by
  induction d using reduceUp.induct with
  | case1 d hd ih => rw [reduceUp.eq_def, if_pos hd]; exact ih (by linarith)
  | case2 d hd => rwa [reduceUp.eq_def, if_neg hd]

lemma reduceUp_congr (d : ℚ) : ∃ k : ℤ, reduceUp d = d + 360 * k := by
  induction d using reduceUp.induct with
  | case1 d hd ih =>
    obtain ⟨k, hk⟩ := ih
    exact ⟨k + 1, by rw [reduceUp.eq_def, if_pos hd, hk]; push_cast; ring⟩
  | case2 d hd => exact ⟨0, by rw [reduceUp.eq_def, if_neg hd]; push_cast; ring⟩

end ODSWorld

open ODSWorld in
/-- C4: `getAlphaDiff` returns the shortest-path angular difference,
normalized into `[-180, 180]`, for all angle inputs (it differs from the
raw difference `a1 - a2` by an integer multiple of 360°); in particular
the difference between 359° and 1° is -2, not 358. -/
theorem claim_C4_getAlphaDiff_shortest_path :
    (∀ a1 a2 : ℚ,
      -180 ≤ getAlphaDiff a1 a2 ∧ getAlphaDiff a1 a2 ≤ 180 ∧
      ∃ k : ℤ, getAlphaDiff a1 a2 = a1 - a2 - 360 * k) ∧
    getAlphaDiff 359 1 = -2 := by
  constructor
  · intro a1 a2
    refine ⟨reduceUp_ge _, reduceUp_le _ (reduceDown_le _), ?_⟩
    obtain ⟨k1, hk1⟩ := reduceDown_congr (a1 - a2)
    obtain ⟨k2, hk2⟩ := reduceUp_congr (reduceDown (a1 - a2))
    exact ⟨k1 - k2, by rw [getAlphaDiff, hk2, hk1]; push_cast; ring⟩
  · have h1 : (359 : ℚ) - 1 = 358 := by norm_num
    rw [getAlphaDiff, h1]
    rw [reduceDown.eq_def]
    norm_num
    rw [reduceDown.eq_def]
    norm_num
    rw [reduceUp.eq_def]
    norm_num

/-- C6 counterexample: for the degenerate (zero-size) box, two identical
bounding boxes do NOT yield IoU 1.0 — the `union || 0.0001` fallback
makes `getIoU` return 0, refuting the claim's universal quantification
over all boxes. -/
theorem claim_C6_iou_counterexample :
    ODSWorld.getIoU ⟨0, 0, 0, 0⟩ ⟨0, 0, 0, 0⟩ ≠ 1 := by
  have h : ODSWorld.getIoU ⟨0, 0, 0, 0⟩ ⟨0, 0, 0, 0⟩ = 0 := by
    norm_num [ODSWorld.getIoU]
  rw [h]
  norm_num

open ODSWorld in
/-- C6 (amended): for boxes of positive width and height, `getIoU` of two
identical boxes is exactly 1.0; and for any two boxes whose intersection
area is zero (they are separated along the x-axis or the y-axis),
`getIoU` is 0.0. -/
theorem claim_C6_iou_amended :
    (∀ x y w h : ℚ, 0 < w → 0 < h →
      getIoU ⟨x, y, w, h⟩ ⟨x, y, w, h⟩ = 1) ∧
    (∀ a b : IoUBox,
      min (a.worldX + a.w / 2) (b.worldX + b.w / 2) ≤
        max (a.worldX - a.w / 2) (b.worldX - b.w / 2) ∨
      min (a.worldY + a.h / 2) (b.worldY + b.h / 2) ≤
        max (a.worldY - a.h / 2) (b.worldY - b.h / 2) →
      getIoU a b = 0) := by
  constructor
  · intro x y w h hw hh
    have hwh : 0 < w * h := mul_pos hw hh
    simp only [getIoU, max_self, min_self]
    have h1 : x + w / 2 - (x - w / 2) = w := by ring
    have h2 : y + h / 2 - (y - h / 2) = h := by ring
    rw [h1, h2, max_eq_right hw.le, max_eq_right hh.le]
    have h3 : w * h + w * h - w * h = w * h := by ring
    rw [h3, if_neg (ne_of_gt hwh)]
    exact div_self (ne_of_gt hwh)
  · intro a b hdisj
    simp only [getIoU]
    rcases hdisj with h | h
    · rw [max_eq_left
        (by linarith :
          min (a.worldX + a.w / 2) (b.worldX + b.w / 2) -
            max (a.worldX - a.w / 2) (b.worldX - b.w / 2) ≤ 0)]
      rw [zero_mul, zero_div]
    · rw [max_eq_left
        (by linarith :
          min (a.worldY + a.h / 2) (b.worldY + b.h / 2) -
            max (a.worldY - a.h / 2) (b.worldY - b.h / 2) ≤ 0)]
      rw [mul_zero, zero_div]

/-- Witness for the amended C6: identical 2×2 boxes give IoU 1; boxes ten
units apart give IoU 0. -/
theorem claim_C6_iou_amended_witness :
    ODSWorld.getIoU ⟨0, 0, 2, 2⟩ ⟨0, 0, 2, 2⟩ = 1 ∧
    ODSWorld.getIoU ⟨0, 0, 2, 2⟩ ⟨10, 0, 2, 2⟩ = 0 :=
  ⟨claim_C6_iou_amended.1 0 0 2 2 (by norm_num) (by norm_num),
   claim_C6_iou_amended.2 ⟨0, 0, 2, 2⟩ ⟨10, 0, 2, 2⟩
     (by left; norm_num [min_def, max_def])⟩

open ODSInterp in
/-- C7: in the adaptive-LERP interpolation, for every tracked marker whose
Euclidean distance between current and target position is strictly below
`JITTER_THRESHOLD` (3.0 pixels), the update leaves the current `x`, `y`,
`width` and `height` completely unchanged. -/
theorem claim_C7_deadzone_no_change :
    ∀ (curr target : IMarker) (dist : ℚ),
      0 ≤ dist →
      dist * dist =
        (target.x - curr.x) * (target.x - curr.x) +
        (target.y - curr.y) * (target.y - curr.y) →
      dist < JITTER_THRESHOLD →
      interpUpdate curr target dist = curr := by
  intro curr target dist _ _ hlt
  unfold interpUpdate
  rw [if_pos hlt]

/-- Witness for C7: centers two pixels apart (dist = 2 < 3) leave the
marker untouched. -/
theorem claim_C7_deadzone_no_change_witness :
    ODSInterp.interpUpdate ⟨0, 0, 5, 5⟩ ⟨0, 2, 9, 9⟩ 2 = ⟨0, 0, 5, 5⟩ :=
  claim_C7_deadzone_no_change ⟨0, 0, 5, 5⟩ ⟨0, 2, 9, 9⟩ 2
    (by norm_num) (by norm_num)
    (by norm_num [ODSInterp.JITTER_THRESHOLD])

open ODSInterp in
/-- C8: for every non-negative pixel delta `dist`, the effective
interpolation factor `clamp((dist/100) * MAX_LERP, MIN_LERP, MAX_LERP)`
lies within `[MIN_LERP, MAX_LERP] = [0.08, 0.6]`, and it is monotonically
non-decreasing in `dist`. -/
theorem claim_C8_lerpFactor_clamped_monotone :
    (∀ dist : ℚ, 0 ≤ dist →
      MIN_LERP ≤ lerpFactor dist ∧ lerpFactor dist ≤ MAX_LERP) ∧
    (∀ d1 d2 : ℚ, 0 ≤ d1 → d1 ≤ d2 → lerpFactor d1 ≤ lerpFactor d2) := by
  constructor
  · intro dist _
    refine ⟨le_max_left _ _, max_le ?_ (min_le_left _ _)⟩
    norm_num [MIN_LERP, MAX_LERP]
  · intro d1 d2 _ h12
    unfold lerpFactor
    have hmul : d1 / 100 * MAX_LERP ≤ d2 / 100 * MAX_LERP := by
      apply mul_le_mul_of_nonneg_right
      · linarith
      · norm_num [MAX_LERP]
    exact max_le_max le_rfl (min_le_min le_rfl hmul)

/-- Witness for C8: bounds at `dist = 50` and monotonicity between
`dist = 10` and `dist = 20`. -/
theorem claim_C8_lerpFactor_clamped_monotone_witness :
    (ODSInterp.MIN_LERP ≤ ODSInterp.lerpFactor 50 ∧
      ODSInterp.lerpFactor 50 ≤ ODSInterp.MAX_LERP) ∧
    ODSInterp.lerpFactor 10 ≤ ODSInterp.lerpFactor 20 :=
  ⟨claim_C8_lerpFactor_clamped_monotone.1 50 (by norm_num),
   claim_C8_lerpFactor_clamped_monotone.2 10 20 (by norm_num) (by norm_num)⟩

open ODSMain in
/-- C3: `calculateDistance` computes
`distance = (assumedRealHeight * focalLengthPixels) / observedPixelHeight`
with `focalLengthPixels = frameHeight * 1.2` and `assumedRealHeight`
looked up from the label-to-height table via `toLowerCase` (person =
1.7 m; the reachable uppercase Cyrillic worker labels `РЕЧЬ`/`ЛИЦО`/`ТЕЛО`
resolve to 0.25/0.25/1.7 m; labels absent from the table default to
1.0 m); in particular for label "person", frame height 720 px and bbox
height 144 px it returns 10.2 (exact after rounding to one decimal). -/
theorem claim_C3_calculateDistance_formula :
    (∀ (frameH : ℚ) (label : String) (h : ℚ), 0 < h →
      calculateDistance frameH label h =
        toFixed1 (heightFor label * (frameH * 1.2) / h)) ∧
    heightFor "person" = 1.7 ∧
    heightFor "РЕЧЬ" = 0.25 ∧
    heightFor "ЛИЦО" = 0.25 ∧
    heightFor "ТЕЛО" = 1.7 ∧
    (∀ label : String,
      List.lookup (toLowerCase label) OBJECT_HEIGHTS = none →
      heightFor label = 1) ∧
    calculateDistance 720 "person" 144 = 10.2 := by
  have hp : heightFor "person" = 1.7 := rfl
  refine ⟨?_, hp, rfl, rfl, rfl, ?_, ?_⟩
  · intro frameH label h hpos
    unfold calculateDistance
    rw [if_neg (not_le.mpr hpos)]
  · intro label hnone
    unfold heightFor
    rw [hnone]
    norm_num [DEFAULT_HEIGHT]
  · unfold calculateDistance
    rw [if_neg (by norm_num), hp]
    norm_num [toFixed1, round_eq]

/-- Witness for C3: the formula instantiated at the spec's example, and
the default height on a label absent from the table. -/
theorem claim_C3_calculateDistance_formula_witness :
    ODSMain.calculateDistance 720 "person" 144 =
      toFixed1 (ODSMain.heightFor "person" * (720 * 1.2) / 144) ∧
    ODSMain.heightFor "dragon" = 1 :=
  ⟨claim_C3_calculateDistance_formula.1 720 "person" 144 (by norm_num),
   claim_C3_calculateDistance_formula.2.2.2.2.2.1 "dragon" (by decide)⟩

open ODSMain in
/-- C10: `calculateDistance` is total (it returns a rational number for
every label, frame height and bbox height — the Lean embedding is a total
function) and the division is guarded: for every bbox pixel height that
is zero or negative it returns 0, so the estimator has no failure mode at
the public interface. -/
theorem claim_C10_calculateDistance_guarded :
    ∀ (frameH : ℚ) (label : String) (h : ℚ), h ≤ 0 →
      calculateDistance frameH label h = 0 := by
  intro frameH label h hle
  unfold calculateDistance
  rw [if_pos hle]

/-- Witness for C10: zero and negative bbox heights both return 0. -/
theorem claim_C10_calculateDistance_guarded_witness :
    ODSMain.calculateDistance 720 "person" 0 = 0 ∧
    ODSMain.calculateDistance 720 "РЕЧЬ" (-5) = 0 :=
  ⟨claim_C10_calculateDistance_guarded 720 "person" 0 (le_refl 0),
   claim_C10_calculateDistance_guarded 720 "РЕЧЬ" (-5) (by norm_num)⟩

namespace ODSWorld

lemma finalizeStep_inv (now : ℚ)
    (acc : List (String × PersistenceData) × List Marker)
    (entry : String × PersistenceData)
    (h1 : ∀ p ∈ acc.1, now - p.2.lastSeen ≤ MAX_MISSING_MS)
    (h2 : ∀ m ∈ acc.2, now - m.lastUpdated ≤ MAX_MISSING_MS) :
    (∀ p ∈ (finalizeStep now acc entry).1,
      now - p.2.lastSeen ≤ MAX_MISSING_MS) ∧
    (∀ m ∈ (finalizeStep now acc entry).2,
      now - m.lastUpdated ≤ MAX_MISSING_MS) := by
  unfold finalizeStep
  split
  · exact ⟨h1, h2⟩
  · rename_i hkeep
    have hle : now - entry.2.lastSeen ≤ MAX_MISSING_MS := not_lt.mp hkeep
    constructor
    · intro p hp
      rcases List.mem_append.mp hp with hx | hx
      · exact h1 p hx
      · rw [List.mem_singleton.mp hx]
        exact hle
    · intro m hm
      rcases List.mem_append.mp hm with hx | hx
      · exact h2 m hx
      · rw [List.mem_singleton.mp hx]
        simpa [buildMarker] using hle

lemma finalize_aux (now : ℚ) (cache : List (String × PersistenceData)) :
    ∀ acc : List (String × PersistenceData) × List Marker,
      (∀ p ∈ acc.1, now - p.2.lastSeen ≤ MAX_MISSING_MS) →
      (∀ m ∈ acc.2, now - m.lastUpdated ≤ MAX_MISSING_MS) →
      (∀ p ∈ (cache.foldl (finalizeStep now) acc).1,
        now - p.2.lastSeen ≤ MAX_MISSING_MS) ∧
      (∀ m ∈ (cache.foldl (finalizeStep now) acc).2,
        now - m.lastUpdated ≤ MAX_MISSING_MS) := by
  induction cache with
  | nil => intro acc h1 h2; exact ⟨h1, h2⟩
  | cons e es ih =>
    intro acc h1 h2
    simp only [List.foldl_cons]
    obtain ⟨g1, g2⟩ := finalizeStep_inv now acc e h1 h2
    exact ih (finalizeStep now acc e) g1 g2

lemma finalize_inv (now : ℚ) (cache : List (String × PersistenceData)) :
    (∀ p ∈ (finalize now cache).1, now - p.2.lastSeen ≤ MAX_MISSING_MS) ∧
    (∀ m ∈ (finalize now cache).2, now - m.lastUpdated ≤ MAX_MISSING_MS) :=
  finalize_aux now cache ([], [])
    (by intro p hp; exact absurd hp (List.not_mem_nil p))
    (by intro m hm; exact absurd hm (List.not_mem_nil m))

lemma getAlphaDiff_zero : getAlphaDiff 0 0 = 0 := by
  unfold getAlphaDiff
  norm_num
  rw [reduceDown.eq_def]
  norm_num
  rw [reduceUp.eq_def]
  norm_num

end ODSWorld

open ODSWorld in
/-- C2: after a reconciliation step (`process`), every entry of the
persistence cache — and every returned marker — has time-since-`lastSeen`
at most `MAX_MISSING_MS` (1500 ms), so any entry whose staleness exceeds
the window is absent from both the cache and the returned marker list;
this holds even for entries that qualified for dead-reckoning
extrapolation, whose `lastSeen` the extrapolation branch refreshes to
`now`. -/
theorem claim_C2_eviction_window :
    ∀ (st : ServiceState) (newDets : List Detection)
      (captureOri : ℚ × ℚ) (now : ℚ),
      (∀ p ∈ (process st newDets captureOri now).1.persistenceCache,
        now - p.2.lastSeen ≤ MAX_MISSING_MS) ∧
      (∀ m ∈ (process st newDets captureOri now).2,
        now - m.lastUpdated ≤ MAX_MISSING_MS) ∧
      (∀ p : String × PersistenceData,
        MAX_MISSING_MS < now - p.2.lastSeen →
        p ∉ (process st newDets captureOri now).1.persistenceCache) := by
  intro st newDets captureOri now
  unfold process
  dsimp only
  obtain ⟨g1, g2⟩ := finalize_inv now
    (spawnLoop now
      (newDets.map (fun d =>
        { toDetection := d
          wx := d.x + getAlphaDiff captureOri.1
            (st.anchorOri.getD captureOri).1 / H_FOV
          wy := d.y + (captureOri.2 - (st.anchorOri.getD captureOri).2) /
            (H_FOV * 0.5625) }))
      (matchLoop now
        (newDets.map (fun d =>
          { toDetection := d
            wx := d.x + getAlphaDiff captureOri.1
              (st.anchorOri.getD captureOri).1 / H_FOV
            wy := d.y + (captureOri.2 - (st.anchorOri.getD captureOri).2) /
              (H_FOV * 0.5625) }))
        st.persistenceCache).2
      (matchLoop now
        (newDets.map (fun d =>
          { toDetection := d
            wx := d.x + getAlphaDiff captureOri.1
              (st.anchorOri.getD captureOri).1 / H_FOV
            wy := d.y + (captureOri.2 - (st.anchorOri.getD captureOri).2) /
              (H_FOV * 0.5625) }))
        st.persistenceCache).1
      st.nextId).1
  refine ⟨g1, g2, ?_⟩
  intro p hstale hp
  exact absurd (g1 p hp) (not_le.mpr hstale)

/-- Witness for C2: a cache entry last seen 500 ms ago survives a
`process` step with no detections, and the theorem bounds its staleness
by the persistence window. -/
theorem claim_C2_eviction_window_witness :
    (2000 : ℚ) - 1500 ≤ ODSWorld.MAX_MISSING_MS :=
  (claim_C2_eviction_window
    ⟨[("a", ⟨"a", 1, 0, 1500, 0, 0, 1, 1, "АВТО", "box", [2], 0, 0⟩)],
      0, some (0, 0)⟩
    [] (0, 0) 2000).1
    ("a", ⟨"a", 1, 0, 1500, 0, 0, 1, 1, "АВТО", "box", [2], 0, 0⟩)
    (by
      simp only [ODSWorld.process, ODSWorld.matchLoop, ODSWorld.matchStep,
        ODSWorld.findBest, ODSWorld.updateUnmatched, ODSWorld.spawnLoop,
        ODSWorld.finalize, ODSWorld.finalizeStep, List.map_nil,
        List.enum_nil, List.foldl_nil, List.foldl_cons, List.nil_append]
      norm_num [ODSWorld.EXTRAPOLATION_LIMIT, ODSWorld.MAX_MISSING_MS])
